import Mathlib

/-!
Shallow embedding of `awswrangler/emr.py`.

The module builds nested request documents for the EMR service.  Python
dictionaries with a fixed key schema are embedded as Lean structures; a key
that may be absent becomes an `Option` field (`none` = the key is absent from
the dictionary, `some v` = the key is present with value `v`).  Python `int`
is embedded as `Int`, `str` as `String`, `bool` as `Bool`, `None`-able
parameters as `Option`.  The remote service client is embedded as an oracle
function supplied by the caller.
-/

namespace Emr

/-- One EBS volume specification (`VolumeSpecification` dict). -/
structure VolumeSpecification where
  sizeInGB : Int
  volumeType : String
deriving Repr, DecidableEq

/-- One entry of `EbsBlockDeviceConfigs`. -/
structure EbsBlockDeviceConfig where
  volumeSpecification : VolumeSpecification
  volumesPerInstance : Int
deriving Repr, DecidableEq

/-- The `EbsConfiguration` dict of an instance type config. -/
structure EbsConfiguration where
  ebsBlockDeviceConfigs : List EbsBlockDeviceConfig
  ebsOptimized : Bool
deriving Repr, DecidableEq

/-- One entry of `InstanceTypeConfigs`. -/
structure InstanceTypeConfig where
  instanceType : String
  weightedCapacity : Int
  bidPriceAsPercentageOfOnDemandPrice : Int
  ebsConfiguration : EbsConfiguration
deriving Repr, DecidableEq

/-- The `SpotSpecification` dict inside `LaunchSpecifications`. -/
structure SpotSpecification where
  timeoutDurationMinutes : Int
  timeoutAction : String
deriving Repr, DecidableEq

/-- The `LaunchSpecifications` dict of a fleet. -/
structure LaunchSpecifications where
  spotSpecification : SpotSpecification
deriving Repr, DecidableEq

/-- One entry of `InstanceFleets`.  The `LaunchSpecifications` key is only
conditionally inserted by the source, hence `Option`. -/
structure InstanceFleet where
  name : String
  instanceFleetType : String
  targetOnDemandCapacity : Int
  targetSpotCapacity : Int
  instanceTypeConfigs : List InstanceTypeConfig
  launchSpecifications : Option LaunchSpecifications
deriving Repr, DecidableEq

/-- The `Instances` dict.  The key pair and the five security group keys are
conditionally inserted (`if pars[...] is not None`), hence `Option`. -/
structure Instances where
  keepJobFlowAliveWhenNoSteps : Bool
  terminationProtected : Bool
  ec2SubnetId : String
  instanceFleets : List InstanceFleet
  ec2KeyName : Option String
  emrManagedMasterSecurityGroup : Option String
  additionalMasterSecurityGroups : Option (List String)
  emrManagedSlaveSecurityGroup : Option String
  additionalSlaveSecurityGroups : Option (List String)
  serviceAccessSecurityGroup : Option String
deriving Repr, DecidableEq

/-- One entry of the `Configurations` list: a classification, a property
dictionary (kept as an association list in source order) and nested
configuration entries. -/
inductive ConfEntry where
  | mk (classification : String) (properties : List (String × String))
      (configurations : List ConfEntry)
deriving Repr

/-- One entry of the `Applications` list (`{"Name": x}`). -/
structure Application where
  name : String
deriving Repr, DecidableEq

/-- The `ScriptBootstrapAction` dict of a bootstrap action. -/
structure ScriptBootstrapAction where
  path : String
deriving Repr, DecidableEq

/-- One entry of the `BootstrapActions` list. -/
structure BootstrapAction where
  name : String
  scriptBootstrapAction : ScriptBootstrapAction
deriving Repr, DecidableEq

/-- The `HadoopJarStep` dict of a step. -/
structure HadoopJarStep where
  jar : String
  args : List String
deriving Repr, DecidableEq

/-- One step entry (used both for the debugging step and by `submit_step`). -/
structure Step where
  name : String
  actionOnFailure : String
  hadoopJarStep : HadoopJarStep
deriving Repr, DecidableEq

/-- The complete document returned by `EMR._build_cluster_args`.  The keys
`Configurations`, `Applications`, `BootstrapActions` and `Steps` are only
conditionally inserted, hence `Option`. -/
structure ClusterArgs where
  name : String
  logUri : String
  releaseLabel : String
  visibleToAllUsers : Bool
  jobFlowRole : String
  serviceRole : String
  instances : Instances
  configurations : Option (List ConfEntry)
  applications : Option (List Application)
  bootstrapActions : Option (List BootstrapAction)
  steps : Option (List Step)
deriving Repr

/-- The keyword parameters of `create_cluster`, passed as `pars` to
`_build_cluster_args`.  Optional parameters (default `None`) are `Option`. -/
structure Config where
  cluster_name : String
  logging_s3_path : String
  emr_release : String
  subnet_id : String
  emr_ec2_role : String
  emr_role : String
  instance_type_master : String
  instance_type_core : String
  instance_type_task : String
  instance_ebs_size_master : Int
  instance_ebs_size_core : Int
  instance_ebs_size_task : Int
  instance_num_on_demand_master : Int
  instance_num_on_demand_core : Int
  instance_num_on_demand_task : Int
  instance_num_spot_master : Int
  instance_num_spot_core : Int
  instance_num_spot_task : Int
  spot_bid_percentage_of_on_demand_master : Int
  spot_bid_percentage_of_on_demand_core : Int
  spot_bid_percentage_of_on_demand_task : Int
  spot_provisioning_timeout_master : Int
  spot_provisioning_timeout_core : Int
  spot_provisioning_timeout_task : Int
  spot_timeout_to_on_demand_master : Bool
  spot_timeout_to_on_demand_core : Bool
  spot_timeout_to_on_demand_task : Bool
  python3 : Bool
  spark_glue_catalog : Bool
  hive_glue_catalog : Bool
  presto_glue_catalog : Bool
  bootstraps_paths : Option (List String)
  debugging : Bool
  applications : Option (List String)
  visible_to_all_users : Bool
  key_pair_name : Option String
  security_group_master : Option String
  security_groups_master_additional : Option (List String)
  security_group_slave : Option String
  security_groups_slave_additional : Option (List String)
  security_group_service_access : Option String
deriving Repr

/-- Python truthiness of an `Optional[List[str]]` value: `None` and the empty
list are falsy, a non-empty list is truthy. -/
def listTruthy : Option (List String) → Bool
  | none => false
  | some xs => !xs.isEmpty

/-- The classification entry appended when `python3` is truthy
(emr.py lines 58 to 70). -/
def python3Conf : ConfEntry :=
  .mk "spark-env" []
    [.mk "export" [("PYSPARK_PYTHON", "/usr/bin/python3")] []]

/-- The classification entry appended when `spark_glue_catalog` is truthy
(emr.py lines 71 to 79). -/
def sparkGlueConf : ConfEntry :=
  .mk "spark-hive-site"
    [("hive.metastore.client.factory.class",
      "com.amazonaws.glue.catalog.metastore.AWSGlueDataCatalogHiveClientFactory")]
    []

/-- The classification entry appended when `hive_glue_catalog` is truthy
(emr.py lines 80 to 88). -/
def hiveGlueConf : ConfEntry :=
  .mk "hive-site"
    [("hive.metastore.client.factory.class",
      "com.amazonaws.glue.catalog.metastore.AWSGlueDataCatalogHiveClientFactory")]
    []

/-- The classification entry appended when `presto_glue_catalog` is truthy
(emr.py lines 89 to 96). -/
def prestoGlueConf : ConfEntry :=
  .mk "presto-connector-hive"
    [("hive.metastore.glue.datacatalog.enabled", "true")]
    []

/-- One fleet block of `_build_cluster_args`.  The source repeats this block
verbatim for MASTER (lines 122 to 160), CORE (lines 162 to 199) and TASK
(lines 201 to 239) with role-specific parameters; the conditional insertion
of `LaunchSpecifications` (`if pars[...] > 0`) becomes the `Option` value. -/
def buildFleet (role : String) (onDemand spot : Int) (instanceType : String)
    (bidPct ebsSize timeout : Int) (switchToOnDemand : Bool) : InstanceFleet :=
  { name := role
    instanceFleetType := role
    targetOnDemandCapacity := onDemand
    targetSpotCapacity := spot
    instanceTypeConfigs := [
      { instanceType := instanceType
        weightedCapacity := 1
        bidPriceAsPercentageOfOnDemandPrice := bidPct
        ebsConfiguration :=
          { ebsBlockDeviceConfigs := [
              { volumeSpecification := { sizeInGB := ebsSize, volumeType := "gp2" }
                volumesPerInstance := 1 }]
            ebsOptimized := true } }]
    launchSpecifications :=
      if 0 < spot then
        some { spotSpecification :=
                 { timeoutDurationMinutes := timeout
                   timeoutAction :=
                     if switchToOnDemand then "SWITCH_TO_ON_DEMAND"
                     else "TERMINATE_CLUSTER" } }
      else none }

/-- `EMR._build_cluster_args` (emr.py lines 22 to 242). -/
def buildClusterArgs (pars : Config) : ClusterArgs :=
  { name := pars.cluster_name
    logUri := pars.logging_s3_path
    releaseLabel := pars.emr_release
    visibleToAllUsers := pars.visible_to_all_users
    jobFlowRole := pars.emr_ec2_role
    serviceRole := pars.emr_role
    instances :=
      { keepJobFlowAliveWhenNoSteps := true
        terminationProtected := false
        ec2SubnetId := pars.subnet_id
        instanceFleets := [
          buildFleet "MASTER" pars.instance_num_on_demand_master
            pars.instance_num_spot_master pars.instance_type_master
            pars.spot_bid_percentage_of_on_demand_master
            pars.instance_ebs_size_master pars.spot_provisioning_timeout_master
            pars.spot_timeout_to_on_demand_master,
          buildFleet "CORE" pars.instance_num_on_demand_core
            pars.instance_num_spot_core pars.instance_type_core
            pars.spot_bid_percentage_of_on_demand_core
            pars.instance_ebs_size_core pars.spot_provisioning_timeout_core
            pars.spot_timeout_to_on_demand_core,
          buildFleet "TASK" pars.instance_num_on_demand_task
            pars.instance_num_spot_task pars.instance_type_task
            pars.spot_bid_percentage_of_on_demand_task
            pars.instance_ebs_size_task pars.spot_provisioning_timeout_task
            pars.spot_timeout_to_on_demand_task]
        ec2KeyName := pars.key_pair_name
        emrManagedMasterSecurityGroup := pars.security_group_master
        additionalMasterSecurityGroups := pars.security_groups_master_additional
        emrManagedSlaveSecurityGroup := pars.security_group_slave
        additionalSlaveSecurityGroups := pars.security_groups_slave_additional
        serviceAccessSecurityGroup := pars.security_group_service_access }
    configurations :=
      if pars.python3 || pars.spark_glue_catalog || pars.hive_glue_catalog
          || pars.presto_glue_catalog then
        some ((if pars.python3 then [python3Conf] else []) ++
              (if pars.spark_glue_catalog then [sparkGlueConf] else []) ++
              (if pars.hive_glue_catalog then [hiveGlueConf] else []) ++
              (if pars.presto_glue_catalog then [prestoGlueConf] else []))
      else none
    applications :=
      if listTruthy pars.applications then
        some ((pars.applications.getD []).map Application.mk)
      else none
    bootstrapActions :=
      if listTruthy pars.bootstraps_paths then
        some ((pars.bootstraps_paths.getD []).map fun x =>
          { name := x, scriptBootstrapAction := { path := x } })
      else none
    steps :=
      if pars.debugging then
        some [{ name := "Setup Hadoop Debugging"
                actionOnFailure := "TERMINATE_CLUSTER"
                hadoopJarStep := { jar := "command-runner.jar"
                                   args := ["state-pusher-script"] } }]
      else none }

/-- The three fleet roles. -/
inductive Role where
  | master
  | core
  | task
deriving Repr, DecidableEq

/-- Position of a role inside the `InstanceFleets` list. -/
def Role.idx : Role → Nat
  | .master => 0
  | .core => 1
  | .task => 2

/-- The role name used for both `Name` and `InstanceFleetType`. -/
def Role.roleName : Role → String
  | .master => "MASTER"
  | .core => "CORE"
  | .task => "TASK"

/-- Per-role spot capacity input (`instance_num_spot_*`). -/
def Config.spotNum (pars : Config) : Role → Int
  | .master => pars.instance_num_spot_master
  | .core => pars.instance_num_spot_core
  | .task => pars.instance_num_spot_task

/-- Per-role on-demand capacity input (`instance_num_on_demand_*`). -/
def Config.onDemandNum (pars : Config) : Role → Int
  | .master => pars.instance_num_on_demand_master
  | .core => pars.instance_num_on_demand_core
  | .task => pars.instance_num_on_demand_task

/-- Per-role instance type input (`instance_type_*`). -/
def Config.instanceTypeOf (pars : Config) : Role → String
  | .master => pars.instance_type_master
  | .core => pars.instance_type_core
  | .task => pars.instance_type_task

/-- Per-role spot bid percentage input (`spot_bid_percentage_of_on_demand_*`). -/
def Config.bidPct (pars : Config) : Role → Int
  | .master => pars.spot_bid_percentage_of_on_demand_master
  | .core => pars.spot_bid_percentage_of_on_demand_core
  | .task => pars.spot_bid_percentage_of_on_demand_task

/-- Per-role EBS size input (`instance_ebs_size_*`). -/
def Config.ebsSize (pars : Config) : Role → Int
  | .master => pars.instance_ebs_size_master
  | .core => pars.instance_ebs_size_core
  | .task => pars.instance_ebs_size_task

/-- Per-role spot provisioning timeout input (`spot_provisioning_timeout_*`). -/
def Config.spotTimeout (pars : Config) : Role → Int
  | .master => pars.spot_provisioning_timeout_master
  | .core => pars.spot_provisioning_timeout_core
  | .task => pars.spot_provisioning_timeout_task

/-- Per-role fallback toggle input (`spot_timeout_to_on_demand_*`). -/
def Config.switchToOnDemand (pars : Config) : Role → Bool
  | .master => pars.spot_timeout_to_on_demand_master
  | .core => pars.spot_timeout_to_on_demand_core
  | .task => pars.spot_timeout_to_on_demand_task

/-- The fleet entry of a role inside a produced document. -/
def roleFleet (a : ClusterArgs) (r : Role) : Option InstanceFleet :=
  a.instances.instanceFleets[r.idx]?

/-- Python `s.split(" ")` on character lists: split at every occurrence of
`sep`, keeping empty pieces; the empty string yields one empty piece. -/
def pySplit (sep : Char) (s : List Char) : List (List Char) :=
  s.foldr
    (fun c acc =>
      match acc with
      | h :: t => if c = sep then [] :: h :: t else (c :: h) :: t
      | [] => [[c]])
    [[]]

/-- Python `cmd.split(" ")` on strings (emr.py line 375). -/
def pySplitStr (sep : Char) (s : String) : List String :=
  (pySplit sep s.data).map String.mk

/-- The step document built by `submit_step` (emr.py lines 370 to 377). -/
def buildStep (name cmd action_on_failure region : String) : Step :=
  { name := name
    actionOnFailure := action_on_failure
    hadoopJarStep :=
      { jar := "s3://" ++ region ++
          ".elasticmapreduce/libs/script-runner/script-runner.jar"
        args := pySplitStr ' ' cmd } }

/-- The default value of the `action_on_failure` parameter of `submit_step`
(emr.py line 359). -/
def submitStepDefaultAction : String := "CONTINUE"

/-- `submit_step` (emr.py lines 359 to 380): build the single-step document,
hand it to the service client (embedded as the oracle `svc`, which maps the
cluster id and the submitted steps to the `StepIds` list of the response) and
return the first entry of that list. -/
def submitStep (region cluster_id name cmd action_on_failure : String)
    (svc : String → List Step → List String) : Option String :=
  (svc cluster_id [buildStep name cmd action_on_failure region])[0]?

/-- `submit_step` called without an explicit `action_on_failure` argument:
the Python default `"CONTINUE"` is used. -/
def submitStepDefault (region cluster_id name cmd : String)
    (svc : String → List Step → List String) : Option String :=
  submitStep region cluster_id name cmd submitStepDefaultAction svc

/-- A complete configuration used to instantiate universally quantified
theorems at concrete inputs. -/
def cfgBase : Config :=
  { cluster_name := "wrangler-cluster"
    logging_s3_path := "s3://bucket/emr-logs/"
    emr_release := "emr-5.27.0"
    subnet_id := "subnet-0ab12"
    emr_ec2_role := "EMR_EC2_DefaultRole"
    emr_role := "EMR_DefaultRole"
    instance_type_master := "m5.xlarge"
    instance_type_core := "r5.xlarge"
    instance_type_task := "r5.2xlarge"
    instance_ebs_size_master := 64
    instance_ebs_size_core := 128
    instance_ebs_size_task := 16
    instance_num_on_demand_master := 1
    instance_num_on_demand_core := 1
    instance_num_on_demand_task := 0
    instance_num_spot_master := 2
    instance_num_spot_core := 0
    instance_num_spot_task := 4
    spot_bid_percentage_of_on_demand_master := 100
    spot_bid_percentage_of_on_demand_core := 100
    spot_bid_percentage_of_on_demand_task := 80
    spot_provisioning_timeout_master := 30
    spot_provisioning_timeout_core := 30
    spot_provisioning_timeout_task := 15
    spot_timeout_to_on_demand_master := true
    spot_timeout_to_on_demand_core := true
    spot_timeout_to_on_demand_task := false
    python3 := true
    spark_glue_catalog := true
    hive_glue_catalog := true
    presto_glue_catalog := true
    bootstraps_paths := none
    debugging := true
    applications := some ["Hadoop", "Spark"]
    visible_to_all_users := true
    key_pair_name := none
    security_group_master := none
    security_groups_master_additional := none
    security_group_slave := none
    security_groups_slave_additional := none
    security_group_service_access := none }

/-- The fleet entry of role `r` in a produced document is exactly the fleet
block built from the role-specific inputs. -/
lemma roleFleet_buildClusterArgs (pars : Config) (r : Role) :
    roleFleet (buildClusterArgs pars) r =
      some (buildFleet r.roleName (pars.onDemandNum r) (pars.spotNum r)
        (pars.instanceTypeOf r) (pars.bidPct r) (pars.ebsSize r)
        (pars.spotTimeout r) (pars.switchToOnDemand r)) := by
  cases r <;> rfl

/-- Presence of a conditionally inserted key: the option is `some` exactly
when the boolean guard holds. -/
lemma isSome_boolIf {α : Type} (c : Bool) (x : α) :
    (if c then some x else none).isSome = c := by
  cases c <;> simp

/-- C1: for each fleet role, if the role's spot capacity is positive the
fleet entry carries a `LaunchSpecifications` key whose timeout duration is
the role's `spot_provisioning_timeout_*` input and whose timeout action is
`"SWITCH_TO_ON_DEMAND"` when `spot_timeout_to_on_demand_*` is true and
`"TERMINATE_CLUSTER"` otherwise; if the spot capacity is 0 the fleet entry
carries no `LaunchSpecifications` key. -/
theorem spot_launch_specification_per_role (pars : Config) (r : Role) :
    (0 < pars.spotNum r →
      (roleFleet (buildClusterArgs pars) r).map InstanceFleet.launchSpecifications =
        some (some
          { spotSpecification :=
              { timeoutDurationMinutes := pars.spotTimeout r
                timeoutAction :=
                  if pars.switchToOnDemand r then "SWITCH_TO_ON_DEMAND"
                  else "TERMINATE_CLUSTER" } })) ∧
    (pars.spotNum r = 0 →
      (roleFleet (buildClusterArgs pars) r).map InstanceFleet.launchSpecifications =
        some none) := by
  rw [roleFleet_buildClusterArgs]
  constructor
  · intro h
    simp [buildFleet, h]
  · intro h
    simp [buildFleet, h]

/-- Witness for C1: in `cfgBase` the MASTER role has spot capacity 2 > 0 and
gets the spot specification, the CORE role has spot capacity 0 and gets
none. -/
theorem spot_launch_specification_per_role_witness :
    (roleFleet (buildClusterArgs cfgBase) Role.master).map
        InstanceFleet.launchSpecifications =
      some (some
        { spotSpecification :=
            { timeoutDurationMinutes := 30
              timeoutAction := "SWITCH_TO_ON_DEMAND" } }) ∧
    (roleFleet (buildClusterArgs cfgBase) Role.core).map
        InstanceFleet.launchSpecifications = some none :=
  ⟨(spot_launch_specification_per_role cfgBase Role.master).1 (by decide),
   (spot_launch_specification_per_role cfgBase Role.core).2 (by decide)⟩

/-- C3: the instances block always sets keep-alive to true and termination
protection to false, carries the given subnet id, and its fleet list has
exactly three entries named and typed MASTER, CORE, TASK in that order. -/
theorem instances_block_shape (pars : Config) :
    (buildClusterArgs pars).instances.keepJobFlowAliveWhenNoSteps = true ∧
    (buildClusterArgs pars).instances.terminationProtected = false ∧
    (buildClusterArgs pars).instances.ec2SubnetId = pars.subnet_id ∧
    (buildClusterArgs pars).instances.instanceFleets.length = 3 ∧
    (buildClusterArgs pars).instances.instanceFleets.map InstanceFleet.name =
      ["MASTER", "CORE", "TASK"] ∧
    (buildClusterArgs pars).instances.instanceFleets.map
        InstanceFleet.instanceFleetType = ["MASTER", "CORE", "TASK"] :=
  ⟨rfl, rfl, rfl, rfl, rfl, rfl⟩

/-- C5: each role's fleet entry has name and fleet type equal to the role
name, target capacities taken directly from the role's inputs, and exactly
one instance type config with weighted capacity 1, the role's instance type,
the role's bid percentage, and an EBS configuration with one gp2 block device
of the role's size, one volume per instance, EBS-optimized true. -/
theorem fleet_fields_per_role (pars : Config) (r : Role) :
    ∃ f, roleFleet (buildClusterArgs pars) r = some f ∧
      f.name = r.roleName ∧
      f.instanceFleetType = r.roleName ∧
      f.targetOnDemandCapacity = pars.onDemandNum r ∧
      f.targetSpotCapacity = pars.spotNum r ∧
      f.instanceTypeConfigs = [
        { instanceType := pars.instanceTypeOf r
          weightedCapacity := 1
          bidPriceAsPercentageOfOnDemandPrice := pars.bidPct r
          ebsConfiguration :=
            { ebsBlockDeviceConfigs := [
                { volumeSpecification :=
                    { sizeInGB := pars.ebsSize r, volumeType := "gp2" }
                  volumesPerInstance := 1 }]
              ebsOptimized := true } }] :=
  ⟨_, roleFleet_buildClusterArgs pars r, rfl, rfl, rfl, rfl, rfl⟩

/-- A configuration whose key-pair name is the empty string and whose
additional master security group list is empty: both are non-`None`, so the
source inserts their keys even though the values are empty. -/
def cfgEmptyTriggers : Config :=
  { cfgBase with
    key_pair_name := some ""
    security_groups_master_additional := some ([] : List String) }

/-- Counterexample to C2 as stated: with an empty-string key-pair name and an
empty additional-master-security-group list — both falsy, empty triggers —
the produced document still contains the `Ec2KeyName` and
`AdditionalMasterSecurityGroups` keys, holding the empty values; the claim
says such keys must be absent entirely and never present with an empty
value. -/
theorem optional_sections_counterexample :
    cfgEmptyTriggers.key_pair_name = some "" ∧
    cfgEmptyTriggers.security_groups_master_additional = some [] ∧
    (buildClusterArgs cfgEmptyTriggers).instances.ec2KeyName = some "" ∧
    (buildClusterArgs cfgEmptyTriggers).instances.ec2KeyName ≠ none ∧
    (buildClusterArgs cfgEmptyTriggers).instances.additionalMasterSecurityGroups =
      some [] ∧
    (buildClusterArgs cfgEmptyTriggers).instances.additionalMasterSecurityGroups ≠
      none := by
  refine ⟨rfl, rfl, rfl, ?_, rfl, ?_⟩ <;> decide

/-- C2 amended: the configurations list, applications list, bootstrap actions
list and debugging step are present in the document exactly when their
trigger is truthy (for the toggles) or a non-empty list; the EC2 key-pair
name and the five security-group fields are instead gated on being non-null
only, passed through unchanged — a present but empty string or list input
yields a present key holding that empty value. -/
theorem optional_sections_presence (pars : Config) :
    (buildClusterArgs pars).configurations.isSome =
      (pars.python3 || pars.spark_glue_catalog || pars.hive_glue_catalog
        || pars.presto_glue_catalog) ∧
    (buildClusterArgs pars).applications.isSome = listTruthy pars.applications ∧
    (buildClusterArgs pars).bootstrapActions.isSome =
      listTruthy pars.bootstraps_paths ∧
    (buildClusterArgs pars).steps.isSome = pars.debugging ∧
    (buildClusterArgs pars).instances.ec2KeyName = pars.key_pair_name ∧
    (buildClusterArgs pars).instances.emrManagedMasterSecurityGroup =
      pars.security_group_master ∧
    (buildClusterArgs pars).instances.additionalMasterSecurityGroups =
      pars.security_groups_master_additional ∧
    (buildClusterArgs pars).instances.emrManagedSlaveSecurityGroup =
      pars.security_group_slave ∧
    (buildClusterArgs pars).instances.additionalSlaveSecurityGroups =
      pars.security_groups_slave_additional ∧
    (buildClusterArgs pars).instances.serviceAccessSecurityGroup =
      pars.security_group_service_access :=
  ⟨isSome_boolIf _ _, isSome_boolIf _ _, isSome_boolIf _ _, isSome_boolIf _ _,
   rfl, rfl, rfl, rfl, rfl, rfl⟩

/-- C4: with exactly one of the four toggles true the configurations list is
the singleton holding that toggle's classification entry; with all four true
it is the four entries in order python3, spark, hive, presto; with all four
false no `Configurations` key appears. -/
theorem configurations_by_toggles (pars : Config) :
    (pars.python3 = true ∧ pars.spark_glue_catalog = false ∧
        pars.hive_glue_catalog = false ∧ pars.presto_glue_catalog = false →
      (buildClusterArgs pars).configurations = some [python3Conf]) ∧
    (pars.python3 = false ∧ pars.spark_glue_catalog = true ∧
        pars.hive_glue_catalog = false ∧ pars.presto_glue_catalog = false →
      (buildClusterArgs pars).configurations = some [sparkGlueConf]) ∧
    (pars.python3 = false ∧ pars.spark_glue_catalog = false ∧
        pars.hive_glue_catalog = true ∧ pars.presto_glue_catalog = false →
      (buildClusterArgs pars).configurations = some [hiveGlueConf]) ∧
    (pars.python3 = false ∧ pars.spark_glue_catalog = false ∧
        pars.hive_glue_catalog = false ∧ pars.presto_glue_catalog = true →
      (buildClusterArgs pars).configurations = some [prestoGlueConf]) ∧
    (pars.python3 = true ∧ pars.spark_glue_catalog = true ∧
        pars.hive_glue_catalog = true ∧ pars.presto_glue_catalog = true →
      (buildClusterArgs pars).configurations =
        some [python3Conf, sparkGlueConf, hiveGlueConf, prestoGlueConf]) ∧
    (pars.python3 = false ∧ pars.spark_glue_catalog = false ∧
        pars.hive_glue_catalog = false ∧ pars.presto_glue_catalog = false →
      (buildClusterArgs pars).configurations = none) := by
  refine ⟨?_, ?_, ?_, ?_, ?_, ?_⟩ <;> rintro ⟨h1, h2, h3, h4⟩ <;>
    simp [buildClusterArgs, h1, h2, h3, h4]

/-- Configuration with only the python3 toggle set. -/
def cfgOnlyPython3 : Config :=
  { cfgBase with
    python3 := true
    spark_glue_catalog := false
    hive_glue_catalog := false
    presto_glue_catalog := false }

/-- Configuration with none of the four toggles set. -/
def cfgNoToggles : Config :=
  { cfgOnlyPython3 with python3 := false }

/-- Witness for C4: python3 only gives the singleton list, all four toggles
(as in `cfgBase`) give the four entries in order, no toggles gives no key. -/
theorem configurations_by_toggles_witness :
    (buildClusterArgs cfgOnlyPython3).configurations = some [python3Conf] ∧
    (buildClusterArgs cfgBase).configurations =
      some [python3Conf, sparkGlueConf, hiveGlueConf, prestoGlueConf] ∧
    (buildClusterArgs cfgNoToggles).configurations = none :=
  ⟨(configurations_by_toggles cfgOnlyPython3).1 ⟨rfl, rfl, rfl, rfl⟩,
   (configurations_by_toggles cfgBase).2.2.2.2.1 ⟨rfl, rfl, rfl, rfl⟩,
   (configurations_by_toggles cfgNoToggles).2.2.2.2.2 ⟨rfl, rfl, rfl, rfl⟩⟩

/-- C6: the step document built by `submit_step` has the region-parameterized
script-runner jar URI and its argument list is the command string split on
the space character; with cmd `"spark-submit a b"` the arguments are
`["spark-submit", "a", "b"]`; the returned value is the first step id of the
service response. -/
theorem submit_step_document_and_result
    (region cluster_id name cmd action : String)
    (svc : String → List Step → List String) :
    (buildStep name cmd action region).hadoopJarStep.jar =
      "s3://" ++ region ++
        ".elasticmapreduce/libs/script-runner/script-runner.jar" ∧
    (buildStep name cmd action region).hadoopJarStep.args = pySplitStr ' ' cmd ∧
    (buildStep name "spark-submit a b" action region).hadoopJarStep.args =
      ["spark-submit", "a", "b"] ∧
    (∀ sid rest, svc cluster_id [buildStep name cmd action region] = sid :: rest →
      submitStep region cluster_id name cmd action svc = some sid) := by
  refine ⟨rfl, rfl, ?_, ?_⟩
  · show pySplitStr ' ' "spark-submit a b" = ["spark-submit", "a", "b"]
    decide
  · intro sid rest h
    simp [submitStep, h]

/-- A concrete service oracle answering with a single step id. -/
def svcOne : String → List Step → List String := fun _ _ => ["s-0123"]

/-- Witness for C6: submitting `"spark-submit a b"` against the one-answer
oracle returns that oracle's first step id. -/
theorem submit_step_document_and_result_witness :
    submitStep "us-east-1" "j-1" "n" "spark-submit a b" "CONTINUE" svcOne =
      some "s-0123" :=
  (submit_step_document_and_result "us-east-1" "j-1" "n" "spark-submit a b"
    "CONTINUE" svcOne).2.2.2 "s-0123" [] rfl

/-- C7: the builder performs no local validation.  For every configuration —
with no bound whatsoever on the numeric fields, so also for negative
capacities, percentages above 100 and timeouts outside [5, 1440] — it
returns a document normally, echoing the raw input values into the per-role
fleet entry unchanged. -/
theorem builder_accepts_unvalidated_input (pars : Config) (r : Role) :
    ∃ f, roleFleet (buildClusterArgs pars) r = some f ∧
      f.targetOnDemandCapacity = pars.onDemandNum r ∧
      f.targetSpotCapacity = pars.spotNum r ∧
      f.instanceTypeConfigs.map
          InstanceTypeConfig.bidPriceAsPercentageOfOnDemandPrice =
        [pars.bidPct r] ∧
      (f.instanceTypeConfigs.map fun c =>
          c.ebsConfiguration.ebsBlockDeviceConfigs.map fun b =>
            b.volumeSpecification.sizeInGB) = [[pars.ebsSize r]] ∧
      (0 < pars.spotNum r →
        f.launchSpecifications =
          some { spotSpecification :=
                   { timeoutDurationMinutes := pars.spotTimeout r
                     timeoutAction :=
                       if pars.switchToOnDemand r then "SWITCH_TO_ON_DEMAND"
                       else "TERMINATE_CLUSTER" } }) := by
  refine ⟨_, roleFleet_buildClusterArgs pars r, rfl, rfl, rfl, rfl, ?_⟩
  intro h
  simp [buildFleet, h]

/-- A configuration with out-of-range values: a spot provisioning timeout of
100000 minutes (outside [5, 1440]), a negative on-demand capacity, a negative
EBS size and a bid percentage of 500. -/
def cfgOutOfRange : Config :=
  { cfgBase with
    instance_num_on_demand_master := -5
    instance_num_spot_master := 3
    spot_bid_percentage_of_on_demand_master := 500
    instance_ebs_size_master := -1
    spot_provisioning_timeout_master := 100000 }

/-- Witness for C7: the out-of-range configuration is built without error and
every out-of-range value reappears verbatim in the MASTER fleet entry. -/
theorem builder_accepts_unvalidated_input_witness :
    ∃ f, roleFleet (buildClusterArgs cfgOutOfRange) Role.master = some f ∧
      f.targetOnDemandCapacity = -5 ∧
      f.targetSpotCapacity = 3 ∧
      f.instanceTypeConfigs.map
          InstanceTypeConfig.bidPriceAsPercentageOfOnDemandPrice = [500] ∧
      (f.instanceTypeConfigs.map fun c =>
          c.ebsConfiguration.ebsBlockDeviceConfigs.map fun b =>
            b.volumeSpecification.sizeInGB) = [[-1]] ∧
      f.launchSpecifications =
        some { spotSpecification :=
                 { timeoutDurationMinutes := 100000
                   timeoutAction := "SWITCH_TO_ON_DEMAND" } } := by
  obtain ⟨f, hf, h1, h2, h3, h4, h5⟩ :=
    builder_accepts_unvalidated_input cfgOutOfRange Role.master
  exact ⟨f, hf, h1, h2, h3, h4, h5 (by decide)⟩

/-- C8: for a present, non-empty list of bootstrap paths the document's
bootstrap-actions list has one entry per input path in input order, and each
entry's action name and script path both equal the path string. -/
theorem bootstrap_actions_one_per_path (pars : Config) (xs : List String)
    (hx : pars.bootstraps_paths = some xs) (hne : xs ≠ []) :
    (buildClusterArgs pars).bootstrapActions =
      some (xs.map fun x =>
        { name := x, scriptBootstrapAction := { path := x } }) := by
  have hxe : xs.isEmpty = false := by
    cases xs with
    | nil => exact absurd rfl hne
    | cons y ys => rfl
  simp [buildClusterArgs, listTruthy, hx, hxe]

/-- Configuration with a single bootstrap path. -/
def cfgBootstrap : Config :=
  { cfgBase with bootstraps_paths := some ["s3://b/x.sh"] }

/-- Witness for C8: one bootstrap path yields exactly one bootstrap action
entry, named and pathed with that string. -/
theorem bootstrap_actions_one_per_path_witness :
    (buildClusterArgs cfgBootstrap).bootstrapActions =
      some [{ name := "s3://b/x.sh"
              scriptBootstrapAction := { path := "s3://b/x.sh" } }] :=
  bootstrap_actions_one_per_path cfgBootstrap ["s3://b/x.sh"] rfl (by decide)

/-- C9: when `submit_step` is called without an explicit action-on-failure
argument, the parameter defaults to `"CONTINUE"`, so the submitted step's
`ActionOnFailure` field is `"CONTINUE"`. -/
theorem submit_step_default_action (region cluster_id name cmd : String)
    (svc : String → List Step → List String) :
    submitStepDefaultAction = "CONTINUE" ∧
    (buildStep name cmd submitStepDefaultAction region).actionOnFailure =
      "CONTINUE" ∧
    submitStepDefault region cluster_id name cmd svc =
      submitStep region cluster_id name cmd "CONTINUE" svc :=
  ⟨rfl, rfl, rfl⟩

/-- C10: the command string is split on the single space character, keeping
empty pieces: the empty command yields `[""]`, `"a  b"` yields
`["a", "", "b"]`, and tab or newline characters are never separators. -/
theorem submit_step_splits_on_single_space (name action region : String) :
    (∀ cmd, (buildStep name cmd action region).hadoopJarStep.args =
      pySplitStr ' ' cmd) ∧
    (buildStep name "" action region).hadoopJarStep.args = [""] ∧
    (buildStep name "a  b" action region).hadoopJarStep.args = ["a", "", "b"] ∧
    (buildStep name "a\tb" action region).hadoopJarStep.args = ["a\tb"] ∧
    (buildStep name "a\nb" action region).hadoopJarStep.args = ["a\nb"] := by
  refine ⟨fun cmd => rfl, ?_, ?_, ?_, ?_⟩
  · show pySplitStr ' ' "" = [""]
    decide
  · show pySplitStr ' ' "a  b" = ["a", "", "b"]
    decide
  · show pySplitStr ' ' "a\tb" = ["a\tb"]
    decide
  · show pySplitStr ' ' "a\nb" = ["a\nb"]
    decide

end Emr
